import Mathlib

/-!
Verification of the warehouse-cluster geo dashboard (src/dashboard.py).

The script ingests a CSV into an in-memory table, coerces six numeric
columns to float, lets the user pick a warehouse from the distinct
`warehouse_name` values, filters the table to that warehouse, aggregates
the filtered rows per `k_means` cluster (centroid table and summary
table), and renders a map centered on the warehouse coordinate taken
from the first filtered row.

Modelling conventions of the shallow embedding:
- a pandas DataFrame is a `List` of records in row order;
- numeric (float) cells are rationals `ℚ`, so pandas arithmetic means
  are exact; the spec tolerance of 1e-9 is subsumed by exact equality;
- `Series.mean` over an empty selection yields NaN in pandas; the
  embedding returns `Option ℚ` with `none` standing for NaN;
- `astype(float)` coercion of a raw CSV cell is modelled by `Option ℚ`:
  `some q` is a numeric cell, `none` a non-numeric cell on which Python
  `float()` would raise, so the column coercion fails;
- `groupby` sorts the group keys ascending (pandas default), modelled
  by `List.insertionSort` over the deduplicated key column.
-/

/-- A row of the coerced in-memory table, one field per CSV column
(src/dashboard.py line 31 and the coercions at lines 34-39). -/
structure Row where
  customer_id : String
  latitude : ℚ
  longitude : ℚ
  wh_lat : ℚ
  wh_long : ℚ
  distance_km : ℚ
  dist_from_wh : ℚ
  warehouse_name : String
  k_means : ℤ
  cx_status : String
  partner_gmv : ℚ
  last_order_date : String
deriving DecidableEq, Repr

/-- Pandas `Series.unique`: the distinct values of a column in order of
first appearance (src/dashboard.py line 44). -/
def uniqueList : List String → List String
  | [] => []
  | x :: xs => x :: uniqueList (xs.filter (fun y => y ≠ x))
termination_by l => l.length
decreasing_by
  simp only [List.length_cons]
  exact Nat.lt_succ_of_le (List.length_filter_le _ _)

/-- `warehouses = df['warehouse_name'].unique()` (src/dashboard.py line 44):
the option list of the warehouse selector. -/
def warehouses (df : List Row) : List String :=
  uniqueList (df.map (fun r => r.warehouse_name))

/-- `wh_data = df[df['warehouse_name'] == selected_warehouse]`
(src/dashboard.py line 47). -/
def wh_data (df : List Row) (selected_warehouse : String) : List Row :=
  df.filter (fun r => r.warehouse_name == selected_warehouse)

/-- The group keys of `wh_data.groupby('k_means')`: distinct `k_means`
values sorted ascending (pandas `groupby` default `sort=True`). -/
def clusterKeys (rows : List Row) : List ℤ :=
  List.insertionSort (fun a b => a ≤ b) (rows.map (fun r => r.k_means)).dedup

/-- The member rows of one `k_means` group. -/
def clusterMembers (rows : List Row) (k : ℤ) : List Row :=
  rows.filter (fun r => r.k_means == k)

/-- Pandas `Series.mean`: arithmetic mean of the values, NaN (here
`none`) when the series is empty. -/
def listMean (l : List ℚ) : Option ℚ :=
  if l.isEmpty then none else some (l.sum / (l.length : ℚ))

/-- One row of the centroid table `cluster_data` (src/dashboard.py
lines 58-69): per-cluster aggregates plus the two count columns added
right after the groupby. -/
structure ClusterRow where
  k_means : ℤ
  latitude : Option ℚ
  longitude : Option ℚ
  partner_gmv : ℚ
  distance_km : Option ℚ
  customer_id : ℕ
  cx_status : List String
  transacting_count : ℕ
  non_transacting_count : ℕ
deriving DecidableEq, Repr

/-- The aggregation dictionary of src/dashboard.py lines 58-65 applied
to one group, together with the `transacting_count` and
`non_transacting_count` columns of lines 68-69 (`list.count` on the
collected `cx_status` list). -/
def mkClusterRow (rows : List Row) (k : ℤ) : ClusterRow :=
  let m := clusterMembers rows k
  { k_means := k
    latitude := listMean (m.map (fun r => r.latitude))
    longitude := listMean (m.map (fun r => r.longitude))
    partner_gmv := (m.map (fun r => r.partner_gmv)).sum
    distance_km := listMean (m.map (fun r => r.distance_km))
    customer_id := m.length
    cx_status := m.map (fun r => r.cx_status)
    transacting_count := (m.map (fun r => r.cx_status)).count ("Transacting")
    non_transacting_count := (m.map (fun r => r.cx_status)).count ("Non-Transacting") }

/-- `cluster_data = wh_data.groupby('k_means').agg({...}).reset_index()`
plus the two derived count columns (src/dashboard.py lines 58-69),
as a function of the filtered subset. -/
def cluster_data (rows : List Row) : List ClusterRow :=
  (clusterKeys rows).map (mkClusterRow rows)

/-- One row of the summary table `cluster_summary` (src/dashboard.py
lines 74-81). -/
structure SummaryRow where
  k_means : ℤ
  transacting_count : ℕ
  non_transacting_count : ℕ
  avg_pgmv_transacting : Option ℚ
  avg_pgmv_nontransacting : Option ℚ
  avg_dist_transacting : Option ℚ
  avg_dist_nontransacting : Option ℚ
deriving DecidableEq, Repr

/-- The named aggregations of src/dashboard.py lines 74-81 applied to
one group: `(x=='Transacting').sum()` is the number of member rows with
that exact status, and each `avg_*` column is the mean of `partner_gmv`
resp. `dist_from_wh` restricted to the member rows of that status. -/
def mkSummaryRow (rows : List Row) (k : ℤ) : SummaryRow :=
  let m := clusterMembers rows k
  let t := m.filter (fun r => r.cx_status == "Transacting")
  let nt := m.filter (fun r => r.cx_status == "Non-Transacting")
  { k_means := k
    transacting_count := t.length
    non_transacting_count := nt.length
    avg_pgmv_transacting := listMean (t.map (fun r => r.partner_gmv))
    avg_pgmv_nontransacting := listMean (nt.map (fun r => r.partner_gmv))
    avg_dist_transacting := listMean (t.map (fun r => r.dist_from_wh))
    avg_dist_nontransacting := listMean (nt.map (fun r => r.dist_from_wh)) }

/-- `cluster_summary = wh_data.groupby('k_means').agg(...).reset_index()`
(src/dashboard.py lines 74-81), as a function of the filtered subset. -/
def cluster_summary (rows : List Row) : List SummaryRow :=
  (clusterKeys rows).map (mkSummaryRow rows)

/-- `transacting = wh_data[wh_data['cx_status']=='Transacting']`
(src/dashboard.py line 120). -/
def transacting (rows : List Row) : List Row :=
  rows.filter (fun r => r.cx_status == "Transacting")

/-- `non_transacting = wh_data[wh_data['cx_status']=='Non-Transacting']`
(src/dashboard.py line 121). -/
def non_transacting (rows : List Row) : List Row :=
  rows.filter (fun r => r.cx_status == "Non-Transacting")

/-- The geometry the map figure derives from the warehouse coordinate:
the map center (src/dashboard.py line 161) and the origin endpoint of
each per-cluster connecting line (lines 109-117). -/
structure MapFigure where
  center : ℚ × ℚ
  lineOrigins : List (ℚ × ℚ)
deriving DecidableEq, Repr

/-- Lines 48-53 and 86-165 of src/dashboard.py: when the filtered
subset is empty the script stops before building the figure (`st.stop`,
modelled as `none`); otherwise `wh_lat`/`wh_long` are read from
`wh_data.iloc[0]` and used both as the map center and as the first
endpoint of every connecting line (one line per centroid-table row). -/
def buildFigure (rows : List Row) : Option MapFigure :=
  match rows with
  | [] => none
  | r :: _ =>
    some { center := (r.wh_lat, r.wh_long)
           lineOrigins := (cluster_data rows).map (fun _ => (r.wh_lat, r.wh_long)) }

/-- A row of the freshly parsed CSV before the `astype(float)` calls.
Each of the six coerced columns holds `some q` for a numeric cell and
`none` for a non-numeric cell (on which `float()` raises).
`partner_gmv` keeps the same representation but is never coerced by
the ingestion step. -/
structure RawRow where
  customer_id : String
  latitude : Option ℚ
  longitude : Option ℚ
  wh_lat : Option ℚ
  wh_long : Option ℚ
  distance_km : Option ℚ
  dist_from_wh : Option ℚ
  warehouse_name : String
  k_means : ℤ
  cx_status : String
  partner_gmv : Option ℚ
  last_order_date : String
deriving DecidableEq, Repr

/-- One `df[col] = df[col].astype(float)` statement: succeeds iff every
cell of the column is numeric, otherwise raises (a `ValueError` from
`float()`), modelled as `Except.error` naming the column. -/
def coerceFloatColumn (name : String) (get : RawRow → Option ℚ)
    (rows : List RawRow) : Except String (List RawRow) :=
  if rows.all (fun r => (get r).isSome) then Except.ok rows
  else Except.error ("could not convert value to float in column " ++ name)

/-- The ingestion step, src/dashboard.py lines 31-39: the six
`astype(float)` coercions run in source order; the first failing column
aborts ingestion with its error. No other column is coerced. -/
def ingest (rows : List RawRow) : Except String (List RawRow) := do
  let rows ← coerceFloatColumn ("latitude") (fun r => r.latitude) rows
  let rows ← coerceFloatColumn ("longitude") (fun r => r.longitude) rows
  let rows ← coerceFloatColumn ("wh_lat") (fun r => r.wh_lat) rows
  let rows ← coerceFloatColumn ("wh_long") (fun r => r.wh_long) rows
  let rows ← coerceFloatColumn ("distance_km") (fun r => r.distance_km) rows
  let rows ← coerceFloatColumn ("dist_from_wh") (fun r => r.dist_from_wh) rows
  pure rows

/-- Sample table row: warehouse A, cluster 0, transacting (the first
row of the scenario in the spec, with simplified numbers). -/
def rowA1 : Row :=
  { customer_id := "c1", latitude := 1, longitude := 2, wh_lat := 10
    wh_long := 20, distance_km := 5, dist_from_wh := 5
    warehouse_name := "A", k_means := 0, cx_status := "Transacting"
    partner_gmv := 100, last_order_date := "2024-01-01" }

/-- Sample table row: warehouse A, cluster 0, non-transacting. -/
def rowA2 : Row :=
  { customer_id := "c2", latitude := 2, longitude := 3, wh_lat := 10
    wh_long := 20, distance_km := 7, dist_from_wh := 7
    warehouse_name := "A", k_means := 0, cx_status := "Non-Transacting"
    partner_gmv := 50, last_order_date := "2024-02-01" }

/-- Sample table row: warehouse B, cluster 1, with a `cx_status` value
outside the two recognized ones. -/
def rowB : Row :=
  { customer_id := "c3", latitude := 4, longitude := 5, wh_lat := 40
    wh_long := 50, distance_km := 3, dist_from_wh := 3
    warehouse_name := "B", k_means := 1, cx_status := "Lapsed"
    partner_gmv := 10, last_order_date := "2024-03-01" }

/-- A three-row sample table covering two warehouses. -/
def dfSample : List Row := [rowA1, rowA2, rowB]

/-- The sample table without the warehouse-B row: it has the same
warehouse-A subset as `dfSample`. -/
def dfSampleA : List Row := [rowA1, rowA2]

/-- A raw CSV row whose six coerced columns are all numeric but whose
`partner_gmv` cell is non-numeric. -/
def rawOk : RawRow :=
  { customer_id := "c1", latitude := some 1, longitude := some 2
    wh_lat := some 10, wh_long := some 20, distance_km := some 5
    dist_from_wh := some 5, warehouse_name := "A", k_means := 0
    cx_status := "Transacting", partner_gmv := none
    last_order_date := "2024-01-01" }

/-- A raw CSV row with a non-numeric `latitude` cell. -/
def rawBad : RawRow :=
  { customer_id := "c1", latitude := none, longitude := some 2
    wh_lat := some 10, wh_long := some 20, distance_km := some 5
    dist_from_wh := some 5, warehouse_name := "A", k_means := 0
    cx_status := "Transacting", partner_gmv := some 100
    last_order_date := "2024-01-01" }

/-! ### Helper lemmas about the embedded operations -/

theorem uniqueList_mem (l : List String) (a : String) :
    a ∈ uniqueList l ↔ a ∈ l := by
  induction l using uniqueList.induct with
  | case1 => simp [uniqueList]
  | case2 x xs ih =>
    rw [uniqueList]
    simp only [List.mem_cons, ih, List.mem_filter, decide_eq_true_iff]
    constructor
    · rintro (h | ⟨h1, _⟩)
      · exact Or.inl h
      · exact Or.inr h1
    · rintro (h | h1)
      · exact Or.inl h
      · by_cases hx : a = x
        · exact Or.inl hx
        · exact Or.inr ⟨h1, hx⟩

theorem uniqueList_nodup (l : List String) : (uniqueList l).Nodup := by
  induction l using uniqueList.induct with
  | case1 => simp [uniqueList]
  | case2 x xs ih =>
    rw [uniqueList]
    refine List.nodup_cons.2 ⟨?_, ih⟩
    intro hx
    have := (uniqueList_mem _ x).1 hx
    simp [List.mem_filter] at this

theorem indexOf_filter_lt {l : List String} {p : String → Bool} {a b : String}
    (ha : a ∈ l.filter p) (hb : b ∈ l.filter p)
    (hlt : (l.filter p).indexOf a < (l.filter p).indexOf b) :
    l.indexOf a < l.indexOf b := by
  induction l with
  | nil => simp at ha
  | cons c t ih =>
    by_cases hpc : p c
    · rw [List.filter_cons_of_pos hpc] at ha hb hlt
      by_cases hac : a = c
      · subst hac
        have hba : b ≠ a := by
          intro h
          subst h
          exact lt_irrefl _ hlt
        rw [List.indexOf_cons_self, List.indexOf_cons_ne _ (Ne.symm hba)]
        exact Nat.succ_pos _
      · have hbc : b ≠ c := by
          intro h
          subst h
          rw [List.indexOf_cons_self] at hlt
          exact Nat.not_lt_zero _ hlt
        have ha' : a ∈ t.filter p := by
          rcases List.mem_cons.1 ha with h | h
          · exact absurd h hac
          · exact h
        have hb' : b ∈ t.filter p := by
          rcases List.mem_cons.1 hb with h | h
          · exact absurd h hbc
          · exact h
        rw [List.indexOf_cons_ne _ (Ne.symm hac), List.indexOf_cons_ne _ (Ne.symm hbc)] at hlt
        rw [List.indexOf_cons_ne _ (Ne.symm hac), List.indexOf_cons_ne _ (Ne.symm hbc)]
        exact Nat.succ_lt_succ (ih ha' hb' (Nat.lt_of_succ_lt_succ hlt))
    · rw [List.filter_cons_of_neg hpc] at ha hb hlt
      have hac : a ≠ c := by
        intro h
        subst h
        exact hpc (List.of_mem_filter ha)
      have hbc : b ≠ c := by
        intro h
        subst h
        exact hpc (List.of_mem_filter hb)
      rw [List.indexOf_cons_ne _ (Ne.symm hac), List.indexOf_cons_ne _ (Ne.symm hbc)]
      exact Nat.succ_lt_succ (ih ha hb hlt)

theorem uniqueList_pairwise (l : List String) :
    (uniqueList l).Pairwise (fun a b => l.indexOf a < l.indexOf b) := by
  induction l using uniqueList.induct with
  | case1 => simp [uniqueList]
  | case2 x xs ih =>
    rw [uniqueList]
    refine List.pairwise_cons.2 ⟨?_, ?_⟩
    · intro b hb
      have hbf : b ∈ xs.filter (fun y => decide (y ≠ x)) :=
        (uniqueList_mem _ b).1 hb
      have hbx : b ≠ x := by
        have := List.of_mem_filter hbf
        simpa using this
      rw [List.indexOf_cons_self, List.indexOf_cons_ne _ (Ne.symm hbx)]
      exact Nat.succ_pos _
    · refine List.Pairwise.imp_of_mem ?_ ih
      intro a b ha hb hlt
      have haf : a ∈ xs.filter (fun y => decide (y ≠ x)) :=
        (uniqueList_mem _ a).1 ha
      have hbf : b ∈ xs.filter (fun y => decide (y ≠ x)) :=
        (uniqueList_mem _ b).1 hb
      have hax : a ≠ x := by simpa using List.of_mem_filter haf
      have hbx : b ≠ x := by simpa using List.of_mem_filter hbf
      rw [List.indexOf_cons_ne _ (Ne.symm hax), List.indexOf_cons_ne _ (Ne.symm hbx)]
      exact Nat.succ_lt_succ (indexOf_filter_lt haf hbf hlt)

theorem countP_pair_eq_add (l : List String) (a b : String) (hab : a ≠ b) :
    l.countP (fun x => x == a || x == b) = l.count a + l.count b := by
  induction l with
  | nil => simp
  | cons c t ih =>
    rw [List.countP_cons, List.count_cons, List.count_cons, ih]
    by_cases h1 : c = a
    · subst h1
      have h2 : (c == b) = false := by
        simpa using fun h => hab h
      simp [h2]
      omega
    · by_cases h2 : c = b
      · subst h2
        have h1' : (c == a) = false := by simpa using h1
        simp [h1']
        omega
      · have h1' : (c == a) = false := by simpa using h1
        have h2' : (c == b) = false := by simpa using h2
        simp [h1', h2']

theorem count_pair_le (l : List String) (a b : String) (hab : a ≠ b) :
    l.count a + l.count b ≤ l.length ∧
      (l.count a + l.count b = l.length ↔ ∀ x ∈ l, x = a ∨ x = b) := by
  rw [← countP_pair_eq_add l a b hab]
  refine ⟨List.countP_le_length _, ?_⟩
  rw [List.countP_eq_length]
  constructor
  · intro h x hx
    have := h x hx
    simpa using this
  · intro h x hx
    have := h x hx
    simpa using this

theorem mem_clusterKeys (rows : List Row) (k : ℤ) :
    k ∈ clusterKeys rows ↔ ∃ r ∈ rows, r.k_means = k := by
  unfold clusterKeys
  rw [List.mem_insertionSort, List.mem_dedup, List.mem_map]

theorem clusterMembers_ne_nil {rows : List Row} {k : ℤ}
    (h : k ∈ clusterKeys rows) : clusterMembers rows k ≠ [] := by
  rcases (mem_clusterKeys rows k).1 h with ⟨r, hr, he⟩
  have hm : r ∈ clusterMembers rows k :=
    List.mem_filter.2 ⟨hr, by simp [he]⟩
  intro hnil
  rw [hnil] at hm
  simp at hm

theorem listMean_of_ne_nil {l : List ℚ} (h : l ≠ []) :
    ∃ m, listMean l = some m ∧ m * (l.length : ℚ) = l.sum := by
  have hne : l.isEmpty = false := by
    simp [List.isEmpty_iff, h]
  have hl : (l.length : ℚ) ≠ 0 := by
    have : l.length ≠ 0 := by simpa [List.length_eq_zero] using h
    exact_mod_cast this
  exact ⟨l.sum / (l.length : ℚ), by simp [listMean, hne], div_mul_cancel₀ _ hl⟩

theorem listMean_nil : listMean [] = none := rfl

theorem mem_cluster_data {rows : List Row} {e : ClusterRow} :
    e ∈ cluster_data rows ↔
      ∃ k, k ∈ clusterKeys rows ∧ e = mkClusterRow rows k := by
  unfold cluster_data
  rw [List.mem_map]
  constructor
  · rintro ⟨k, hk, he⟩
    exact ⟨k, hk, he.symm⟩
  · rintro ⟨k, hk, he⟩
    exact ⟨k, hk, he.symm⟩

theorem mem_cluster_summary {rows : List Row} {s : SummaryRow} :
    s ∈ cluster_summary rows ↔
      ∃ k, k ∈ clusterKeys rows ∧ s = mkSummaryRow rows k := by
  unfold cluster_summary
  rw [List.mem_map]
  constructor
  · rintro ⟨k, hk, hs⟩
    exact ⟨k, hk, hs.symm⟩
  · rintro ⟨k, hk, hs⟩
    exact ⟨k, hk, hs.symm⟩

/-- Predicate: all six coerced columns of a raw row are numeric. -/
def rowNumeric (r : RawRow) : Prop :=
  r.latitude.isSome = true ∧ r.longitude.isSome = true ∧
    r.wh_lat.isSome = true ∧ r.wh_long.isSome = true ∧
    r.distance_km.isSome = true ∧ r.dist_from_wh.isSome = true

instance (r : RawRow) : Decidable (rowNumeric r) := by
  unfold rowNumeric
  infer_instance

theorem ingest_ok_iff (rows out : List RawRow) :
    ingest rows = Except.ok out ↔
      out = rows ∧ ∀ r ∈ rows, rowNumeric r := by
  unfold rowNumeric
  by_cases h1 : rows.all (fun r => r.latitude.isSome)
  · by_cases h2 : rows.all (fun r => r.longitude.isSome)
    · by_cases h3 : rows.all (fun r => r.wh_lat.isSome)
      · by_cases h4 : rows.all (fun r => r.wh_long.isSome)
        · by_cases h5 : rows.all (fun r => r.distance_km.isSome)
          · by_cases h6 : rows.all (fun r => r.dist_from_wh.isSome)
            · rw [List.all_eq_true] at h1 h2 h3 h4 h5 h6
              simp only [ingest, coerceFloatColumn, List.all_eq_true,
                if_pos h1, if_pos h2, if_pos h3, if_pos h4, if_pos h5, if_pos h6,
                bind, Except.bind, pure, Except.pure, Except.ok.injEq]
              constructor
              · intro h
                exact ⟨h.symm, fun r hr =>
                  ⟨h1 r hr, h2 r hr, h3 r hr, h4 r hr, h5 r hr, h6 r hr⟩⟩
              · rintro ⟨h, -⟩
                exact h.symm
            · simp only [ingest, coerceFloatColumn, if_pos h1, if_pos h2, if_pos h3,
                if_pos h4, if_pos h5, bind, Except.bind, pure, Except.pure]
              rw [if_neg h6]
              simp only [List.all_eq_true] at h6
              refine ⟨fun h => absurd h (by simp), ?_⟩
              rintro ⟨-, hall⟩
              exact absurd (fun r hr => (hall r hr).2.2.2.2.2) h6
          · simp only [ingest, coerceFloatColumn, if_pos h1, if_pos h2, if_pos h3,
              if_pos h4, bind, Except.bind, pure, Except.pure]
            rw [if_neg h5]
            simp only [List.all_eq_true] at h5
            refine ⟨fun h => absurd h (by simp), ?_⟩
            rintro ⟨-, hall⟩
            exact absurd (fun r hr => (hall r hr).2.2.2.2.1) h5
        · simp only [ingest, coerceFloatColumn, if_pos h1, if_pos h2, if_pos h3,
            bind, Except.bind, pure, Except.pure]
          rw [if_neg h4]
          simp only [List.all_eq_true] at h4
          refine ⟨fun h => absurd h (by simp), ?_⟩
          rintro ⟨-, hall⟩
          exact absurd (fun r hr => (hall r hr).2.2.2.1) h4
      · simp only [ingest, coerceFloatColumn, if_pos h1, if_pos h2,
          bind, Except.bind, pure, Except.pure]
        rw [if_neg h3]
        simp only [List.all_eq_true] at h3
        refine ⟨fun h => absurd h (by simp), ?_⟩
        rintro ⟨-, hall⟩
        exact absurd (fun r hr => (hall r hr).2.2.1) h3
    · simp only [ingest, coerceFloatColumn, if_pos h1,
        bind, Except.bind, pure, Except.pure]
      rw [if_neg h2]
      simp only [List.all_eq_true] at h2
      refine ⟨fun h => absurd h (by simp), ?_⟩
      rintro ⟨-, hall⟩
      exact absurd (fun r hr => (hall r hr).2.1) h2
  · simp only [ingest, coerceFloatColumn, bind, Except.bind]
    rw [if_neg h1]
    simp only [List.all_eq_true] at h1
    refine ⟨fun h => absurd h (by simp), ?_⟩
    rintro ⟨-, hall⟩
    exact absurd (fun r hr => (hall r hr).1) h1

/-! ### Claim theorems -/

/-- Claim C1: for every warehouse W, filtering the table to W and
grouping by `k_means` yields, for each cluster, a centroid whose
latitude and longitude are the arithmetic means of the member rows'
coordinates: each mean is defined (the member list is nonempty) and
multiplied by the member count gives back the coordinate sum; over `ℚ`
this equality is exact, hence well within the 1e-9 tolerance. -/
theorem cluster_data_centroid_mean (df : List Row) (W : String)
    (e : ClusterRow) (he : e ∈ cluster_data (wh_data df W)) :
    ∃ mlat mlon : ℚ,
      e.latitude = some mlat ∧ e.longitude = some mlon ∧
      (clusterMembers (wh_data df W) e.k_means).length ≠ 0 ∧
      mlat * ((clusterMembers (wh_data df W) e.k_means).length : ℚ) =
        ((clusterMembers (wh_data df W) e.k_means).map (fun r => r.latitude)).sum ∧
      mlon * ((clusterMembers (wh_data df W) e.k_means).length : ℚ) =
        ((clusterMembers (wh_data df W) e.k_means).map (fun r => r.longitude)).sum := by
  rcases mem_cluster_data.1 he with ⟨k, hk, rfl⟩
  have hm : clusterMembers (wh_data df W) k ≠ [] := clusterMembers_ne_nil hk
  have hlat : (clusterMembers (wh_data df W) k).map (fun r => r.latitude) ≠ [] := by
    simpa [List.map_eq_nil_iff] using hm
  have hlon : (clusterMembers (wh_data df W) k).map (fun r => r.longitude) ≠ [] := by
    simpa [List.map_eq_nil_iff] using hm
  obtain ⟨mlat, hlat1, hlat2⟩ := listMean_of_ne_nil hlat
  obtain ⟨mlon, hlon1, hlon2⟩ := listMean_of_ne_nil hlon
  rw [List.length_map] at hlat2 hlon2
  refine ⟨mlat, mlon, ?_, ?_, ?_, ?_, ?_⟩
  · simpa [mkClusterRow] using hlat1
  · simpa [mkClusterRow] using hlon1
  · simpa [mkClusterRow, List.length_eq_zero] using hm
  · simpa [mkClusterRow] using hlat2
  · simpa [mkClusterRow] using hlon2

/-- Claim C2: for every warehouse subset and cluster, the summary
table's `transacting_count` (resp. `non_transacting_count`) equals the
count obtained independently by filtering the raw subset on cluster and
exact `cx_status` match and taking the length. -/
theorem cluster_summary_counts_roundtrip (df : List Row) (W : String)
    (s : SummaryRow) (hs : s ∈ cluster_summary (wh_data df W)) :
    s.transacting_count =
      ((wh_data df W).filter
        (fun r => r.cx_status == "Transacting" && r.k_means == s.k_means)).length ∧
    s.non_transacting_count =
      ((wh_data df W).filter
        (fun r => r.cx_status == "Non-Transacting" && r.k_means == s.k_means)).length := by
  rcases mem_cluster_summary.1 hs with ⟨k, hk, rfl⟩
  simp [mkSummaryRow, clusterMembers, List.filter_filter]

/-- Claim C3: in every centroid-table row, the sum of the two status
counts is at most the member count, with equality exactly when every
member's `cx_status` is one of the two recognized values; any other
status value contributes to the member count but to neither status
count. -/
theorem cluster_counts_le_total (df : List Row) (W : String)
    (e : ClusterRow) (he : e ∈ cluster_data (wh_data df W)) :
    e.transacting_count + e.non_transacting_count ≤ e.customer_id ∧
      (e.transacting_count + e.non_transacting_count = e.customer_id ↔
        ∀ st ∈ e.cx_status, st = "Transacting" ∨ st = "Non-Transacting") := by
  rcases mem_cluster_data.1 he with ⟨k, hk, rfl⟩
  have h := count_pair_le
    ((clusterMembers (wh_data df W) k).map (fun r => r.cx_status))
    ("Transacting") ("Non-Transacting") (by decide)
  simpa [mkClusterRow, List.length_map] using h

/-- Claim C4: in the summary table, a cluster with zero rows of a given
status has `none` (pandas NaN, i.e. an undefined/empty value, not zero)
in that status's mean-GMV and mean-distance columns. -/
theorem empty_status_mean_none (df : List Row) (W : String)
    (s : SummaryRow) (hs : s ∈ cluster_summary (wh_data df W)) :
    (s.transacting_count = 0 →
      s.avg_pgmv_transacting = none ∧ s.avg_dist_transacting = none) ∧
    (s.non_transacting_count = 0 →
      s.avg_pgmv_nontransacting = none ∧ s.avg_dist_nontransacting = none) := by
  rcases mem_cluster_summary.1 hs with ⟨k, hk, rfl⟩
  simp only [mkSummaryRow]
  constructor
  · intro h
    have ht : (clusterMembers (wh_data df W) k).filter
        (fun r => r.cx_status == "Transacting") = [] :=
      List.length_eq_zero.1 h
    rw [ht]
    exact ⟨listMean_nil, listMean_nil⟩
  · intro h
    have ht : (clusterMembers (wh_data df W) k).filter
        (fun r => r.cx_status == "Non-Transacting") = [] :=
      List.length_eq_zero.1 h
    rw [ht]
    exact ⟨listMean_nil, listMean_nil⟩

/-- Claim C5: the warehouse selector's option list is the distinct
`warehouse_name` values of the uploaded table, each exactly once
(`Nodup`), containing exactly the observed values, ordered by first
appearance (earlier options have a strictly smaller first-occurrence
index in the column). -/
theorem warehouses_distinct_first_appearance (df : List Row) :
    (warehouses df).Nodup ∧
    (∀ w, w ∈ warehouses df ↔ w ∈ df.map (fun r => r.warehouse_name)) ∧
    (warehouses df).Pairwise
      (fun a b => (df.map (fun r => r.warehouse_name)).indexOf a <
        (df.map (fun r => r.warehouse_name)).indexOf b) :=
  ⟨uniqueList_nodup _, fun w => uniqueList_mem _ w, uniqueList_pairwise _⟩

/-- Claim C6: aggregation is a pure function of the filtered subset:
any two table/selection pairs with the same filtered subset produce
identical centroid and summary tables, so re-running the aggregation
yields identical results and nothing besides (table, selected
warehouse) influences them. -/
theorem aggregation_pure (df df' : List Row) (W W' : String)
    (h : wh_data df W = wh_data df' W') :
    cluster_data (wh_data df W) = cluster_data (wh_data df' W') ∧
      cluster_summary (wh_data df W) = cluster_summary (wh_data df' W') := by
  rw [h]
  exact ⟨rfl, rfl⟩

/-- Claim C7: any warehouse selectable through the selector is an
observed `warehouse_name` value, so its filtered subset is nonempty:
the empty-subset branch (warning plus `st.stop`) is unreachable and the
figure is built. -/
theorem selector_nonempty_subset (df : List Row) (W : String)
    (h : W ∈ warehouses df) :
    wh_data df W ≠ [] ∧ (buildFigure (wh_data df W)).isSome = true := by
  have hmem : W ∈ df.map (fun r => r.warehouse_name) :=
    (uniqueList_mem _ W).1 h
  rcases List.mem_map.1 hmem with ⟨r, hr, he⟩
  have hrf : r ∈ wh_data df W := List.mem_filter.2 ⟨hr, by simp [he]⟩
  have hne : wh_data df W ≠ [] := by
    intro hnil
    rw [hnil] at hrf
    simp at hrf
  refine ⟨hne, ?_⟩
  cases hw : wh_data df W with
  | nil => exact absurd hw hne
  | cons a t => simp [buildFigure]

/-- Claim C8: a non-numeric value in any of the six coerced columns of
any row makes ingestion fail with a type-coercion error (an
`Except.error`), rather than being silently dropped. -/
theorem ingest_fails_on_nonnumeric (rows : List RawRow) (r : RawRow)
    (hr : r ∈ rows)
    (h : r.latitude = none ∨ r.longitude = none ∨ r.wh_lat = none ∨
      r.wh_long = none ∨ r.distance_km = none ∨ r.dist_from_wh = none) :
    ∃ e, ingest rows = Except.error e := by
  cases hi : ingest rows with
  | error e => exact ⟨e, rfl⟩
  | ok out =>
    exfalso
    rcases (ingest_ok_iff rows out).1 hi with ⟨-, hall⟩
    rcases hall r hr with ⟨h1, h2, h3, h4, h5, h6⟩
    rcases h with h | h | h | h | h | h <;> simp_all

/-- Claim C9: the warehouse coordinate used as the map center and as
the origin endpoint of every cluster connecting line is read from the
first row of the filtered subset; every row after the first is ignored
for this purpose (replacing the tail changes neither). -/
theorem figure_center_first_row (r : Row) (rest rest' : List Row) :
    ∃ fig fig' : MapFigure,
      buildFigure (r :: rest) = some fig ∧
      buildFigure (r :: rest') = some fig' ∧
      fig.center = (r.wh_lat, r.wh_long) ∧
      fig'.center = fig.center ∧
      (∀ p ∈ fig.lineOrigins, p = (r.wh_lat, r.wh_long)) ∧
      (∀ p ∈ fig'.lineOrigins, p = (r.wh_lat, r.wh_long)) := by
  refine ⟨_, _, rfl, rfl, rfl, rfl, ?_, ?_⟩ <;>
    · intro p hp
      simp only [List.mem_map] at hp
      rcases hp with ⟨_, -, hpe⟩
      exact hpe.symm

/-- Claim C10: the ingestion step never inspects `partner_gmv`: as soon
as the six coerced columns are numeric in every row, ingestion succeeds
and returns the table unchanged, whatever the `partner_gmv` cells
contain; a non-numeric `partner_gmv` value can only fail later. -/
theorem ingest_ignores_partner_gmv (rows : List RawRow)
    (h : ∀ r ∈ rows, rowNumeric r) :
    ingest rows = Except.ok rows :=
  (ingest_ok_iff rows rows).2 ⟨rfl, h⟩

/-! ### Witnesses: the claim theorems applied at concrete inputs -/

/-- Witness for C1 on the sample table: warehouse A, cluster 0, whose
two members have latitudes 1 and 2 and longitudes 2 and 3. -/
theorem cluster_data_centroid_mean_witness :
    mkClusterRow (wh_data dfSample "A") 0 ∈ cluster_data (wh_data dfSample "A") ∧
    (∃ mlat mlon : ℚ,
      (mkClusterRow (wh_data dfSample "A") 0).latitude = some mlat ∧
      (mkClusterRow (wh_data dfSample "A") 0).longitude = some mlon ∧
      (clusterMembers (wh_data dfSample "A")
        (mkClusterRow (wh_data dfSample "A") 0).k_means).length ≠ 0 ∧
      mlat * ((clusterMembers (wh_data dfSample "A")
        (mkClusterRow (wh_data dfSample "A") 0).k_means).length : ℚ) =
        ((clusterMembers (wh_data dfSample "A")
          (mkClusterRow (wh_data dfSample "A") 0).k_means).map
          (fun r => r.latitude)).sum ∧
      mlon * ((clusterMembers (wh_data dfSample "A")
        (mkClusterRow (wh_data dfSample "A") 0).k_means).length : ℚ) =
        ((clusterMembers (wh_data dfSample "A")
          (mkClusterRow (wh_data dfSample "A") 0).k_means).map
          (fun r => r.longitude)).sum) := by
  have hmem : mkClusterRow (wh_data dfSample "A") 0 ∈
      cluster_data (wh_data dfSample "A") := by
    have hk : clusterKeys (wh_data dfSample "A") = [0] := by decide
    simp [cluster_data, hk]
  exact ⟨hmem, cluster_data_centroid_mean dfSample ("A") _ hmem⟩

/-- Witness for C2 on the sample table: warehouse A, cluster 0, one
transacting and one non-transacting member. -/
theorem cluster_summary_counts_roundtrip_witness :
    mkSummaryRow (wh_data dfSample "A") 0 ∈ cluster_summary (wh_data dfSample "A") ∧
    ((mkSummaryRow (wh_data dfSample "A") 0).transacting_count =
      ((wh_data dfSample "A").filter
        (fun r => r.cx_status == "Transacting" &&
          r.k_means == (mkSummaryRow (wh_data dfSample "A") 0).k_means)).length ∧
    (mkSummaryRow (wh_data dfSample "A") 0).non_transacting_count =
      ((wh_data dfSample "A").filter
        (fun r => r.cx_status == "Non-Transacting" &&
          r.k_means == (mkSummaryRow (wh_data dfSample "A") 0).k_means)).length) := by
  have hmem : mkSummaryRow (wh_data dfSample "A") 0 ∈
      cluster_summary (wh_data dfSample "A") := by
    have hk : clusterKeys (wh_data dfSample "A") = [0] := by decide
    simp [cluster_summary, hk]
  exact ⟨hmem, cluster_summary_counts_roundtrip dfSample ("A") _ hmem⟩

/-- Witness for C3 on the sample table: warehouse B, cluster 1, whose
single member has the unrecognized status value, so the status counts
sum to 0 while the member count is 1. -/
theorem cluster_counts_le_total_witness :
    mkClusterRow (wh_data dfSample "B") 1 ∈ cluster_data (wh_data dfSample "B") ∧
    ((mkClusterRow (wh_data dfSample "B") 1).transacting_count +
      (mkClusterRow (wh_data dfSample "B") 1).non_transacting_count ≤
      (mkClusterRow (wh_data dfSample "B") 1).customer_id ∧
    ((mkClusterRow (wh_data dfSample "B") 1).transacting_count +
      (mkClusterRow (wh_data dfSample "B") 1).non_transacting_count =
      (mkClusterRow (wh_data dfSample "B") 1).customer_id ↔
      ∀ st ∈ (mkClusterRow (wh_data dfSample "B") 1).cx_status,
        st = "Transacting" ∨ st = "Non-Transacting")) := by
  have hmem : mkClusterRow (wh_data dfSample "B") 1 ∈
      cluster_data (wh_data dfSample "B") := by
    have hk : clusterKeys (wh_data dfSample "B") = [1] := by decide
    simp [cluster_data, hk]
  exact ⟨hmem, cluster_counts_le_total dfSample ("B") _ hmem⟩

/-- Witness for C4 on the sample table: warehouse B, cluster 1, has
zero transacting members, so both transacting means are `none`. -/
theorem empty_status_mean_none_witness :
    mkSummaryRow (wh_data dfSample "B") 1 ∈ cluster_summary (wh_data dfSample "B") ∧
    (((mkSummaryRow (wh_data dfSample "B") 1).transacting_count = 0 →
      (mkSummaryRow (wh_data dfSample "B") 1).avg_pgmv_transacting = none ∧
      (mkSummaryRow (wh_data dfSample "B") 1).avg_dist_transacting = none) ∧
    ((mkSummaryRow (wh_data dfSample "B") 1).non_transacting_count = 0 →
      (mkSummaryRow (wh_data dfSample "B") 1).avg_pgmv_nontransacting = none ∧
      (mkSummaryRow (wh_data dfSample "B") 1).avg_dist_nontransacting = none)) := by
  have hmem : mkSummaryRow (wh_data dfSample "B") 1 ∈
      cluster_summary (wh_data dfSample "B") := by
    have hk : clusterKeys (wh_data dfSample "B") = [1] := by decide
    simp [cluster_summary, hk]
  exact ⟨hmem, empty_status_mean_none dfSample ("B") _ hmem⟩

/-- Witness for C6: the full sample table and its two-row restriction
have the same warehouse-A subset, hence identical aggregates. -/
theorem aggregation_pure_witness :
    wh_data dfSample "A" = wh_data dfSampleA "A" ∧
    (cluster_data (wh_data dfSample "A") = cluster_data (wh_data dfSampleA "A") ∧
      cluster_summary (wh_data dfSample "A") =
        cluster_summary (wh_data dfSampleA "A")) :=
  ⟨rfl, aggregation_pure dfSample dfSampleA ("A") ("A") rfl⟩

/-- Witness for C7: warehouse A is offered by the selector on the
sample table and its subset is nonempty. -/
theorem selector_nonempty_subset_witness :
    ("A" : String) ∈ warehouses dfSample ∧
    (wh_data dfSample "A" ≠ [] ∧
      (buildFigure (wh_data dfSample "A")).isSome = true) := by
  have hA : ("A" : String) ∈ warehouses dfSample := by
    unfold warehouses
    exact (uniqueList_mem _ _).2 (by decide)
  exact ⟨hA, selector_nonempty_subset dfSample ("A") hA⟩

/-- Witness for C8: a one-row upload whose `latitude` cell is
non-numeric fails ingestion. -/
theorem ingest_fails_on_nonnumeric_witness :
    rawBad ∈ [rawBad] ∧
    (rawBad.latitude = none ∨ rawBad.longitude = none ∨ rawBad.wh_lat = none ∨
      rawBad.wh_long = none ∨ rawBad.distance_km = none ∨
      rawBad.dist_from_wh = none) ∧
    (∃ e, ingest [rawBad] = Except.error e) :=
  ⟨List.mem_singleton.2 rfl, Or.inl rfl,
    ingest_fails_on_nonnumeric [rawBad] rawBad (List.mem_singleton.2 rfl)
      (Or.inl rfl)⟩

/-- Witness for C10: a one-row upload with a non-numeric `partner_gmv`
cell but numeric coerced columns passes ingestion unchanged. -/
theorem ingest_ignores_partner_gmv_witness :
    rawOk.partner_gmv = none ∧
    (∀ r ∈ [rawOk], rowNumeric r) ∧
    ingest [rawOk] = Except.ok [rawOk] :=
  ⟨rfl, by decide, ingest_ignores_partner_gmv [rawOk] (by decide)⟩
